import Mathlib

/-!
Shallow embedding of `language/transaction-builder/src/lib.rs` from the
`libra` repository: the typed transaction-script encoders, the
authentication-key-prefix validation helper, the bytecode registry lookup
used by `get_transaction_name`, and the stdlib-upgrade `ChangeSet` builder.

Machine integers are modelled as `Nat` (no arithmetic is performed on them
anywhere in this module, so no wrapping is needed); `Vec<u8>` becomes
`List Nat`; a Rust `panic!`/`assert!` abort is modelled by returning `none`
from an `Option`-valued function.
-/

namespace TxnBuilder

/-- Modelled from the spec: `AccountAddress` of `libra_types` (missing from
`src/`), a fixed-width identifier of a chain account. -/
structure AccountAddress where
  bytes : List Nat
deriving DecidableEq

/-- Modelled from the spec: `AccountAddress::LENGTH` of `libra_types`
(missing from `src/`), the fixed byte width of an account address. -/
def AccountAddress.LENGTH : Nat := 16

/-- Modelled from the spec: `AuthenticationKey::LENGTH` of `libra_types`
(missing from `src/`), the byte width of a full authentication key. -/
def AuthenticationKey.LENGTH : Nat := 32

/-- Modelled from the spec: `TypeTag` of `move_core_types` (missing from
`src/`), an opaque generic type parameter (e.g. a currency); nothing in this
module inspects it. -/
structure TypeTag where
  idx : Nat
deriving DecidableEq

/-- Transaction argument tagged union, from `libra_types` (the closed set of
argument kinds used by this module's encoders). -/
inductive TransactionArgument where
  | U64 (v : Nat)
  | Address (a : AccountAddress)
  | U8Vector (bytes : List Nat)
  | Bool (b : Bool)
deriving DecidableEq

/-- Argument-kind tags, for stating schema properties. -/
inductive ArgTag where
  | U64
  | Address
  | Bytes
  | Bool
deriving DecidableEq

/-- Tag of a transaction argument. -/
def TransactionArgument.tag : TransactionArgument → ArgTag
  | .U64 _ => ArgTag.U64
  | .Address _ => ArgTag.Address
  | .U8Vector _ => ArgTag.Bytes
  | .Bool _ => ArgTag.Bool

/-- Script value: bytecode blob, type arguments, arguments (field names as in
`libra_types::transaction::Script`). -/
structure Script where
  code : List Nat
  ty_args : List TypeTag
  args : List TransactionArgument
deriving DecidableEq

/-- Constructor mirroring `Script::new`. -/
def Script.new (code : List Nat) (ty_args : List TypeTag)
    (args : List TransactionArgument) : Script :=
  ⟨code, ty_args, args⟩

/-- Modelled from the spec: the closed enumeration `StdlibScript` of the
`stdlib` crate (missing from `src/`), listing every operation this module
encodes. -/
inductive StdlibScript where
  | AddValidator
  | Burn
  | BurnTxnFees
  | CancelBurn
  | PeerToPeerWithMetadata
  | Preburn
  | PublishSharedEd2551PublicKey
  | AddCurrencyToAccount
  | RegisterPreburner
  | RegisterValidator
  | RemoveValidator
  | RotateCompliancePublicKey
  | RotateBaseUrl
  | RotateConsensusPubkey
  | RotateAuthenticationKey
  | RotateSharedEd2551PublicKey
  | Mint
  | MintLbrToAddress
  | ModifyPublishingOption
  | UpdateLibraVersion
  | MintLbr
  | UnmintLbr
  | UpdateExchangeRate
  | UpdateMintingAbility
  | CreateParentVaspAccount
  | CreateChildVaspAccount
  | TieredMint
  | CreateDesignatedDealer
  | FreezeAccount
  | UnfreezeAccount
  | RotateAuthenticationKeyWithNonce
deriving DecidableEq

/-- Modelled from the spec: the immutable bytecode registry
(`StdlibScript::compiled_bytes` of the `stdlib` crate, missing from `src/`):
each operation owns a fixed, opaque, pairwise-distinct pre-compiled blob,
modelled here as a distinct nonempty byte list per operation. -/
def StdlibScript.compiled_bytes : StdlibScript → List Nat
  | .AddValidator => [0]
  | .Burn => [1]
  | .BurnTxnFees => [2]
  | .CancelBurn => [3]
  | .PeerToPeerWithMetadata => [4]
  | .Preburn => [5]
  | .PublishSharedEd2551PublicKey => [6]
  | .AddCurrencyToAccount => [7]
  | .RegisterPreburner => [8]
  | .RegisterValidator => [9]
  | .RemoveValidator => [10]
  | .RotateCompliancePublicKey => [11]
  | .RotateBaseUrl => [12]
  | .RotateConsensusPubkey => [13]
  | .RotateAuthenticationKey => [14]
  | .RotateSharedEd2551PublicKey => [15]
  | .Mint => [16]
  | .MintLbrToAddress => [17]
  | .ModifyPublishingOption => [18]
  | .UpdateLibraVersion => [19]
  | .MintLbr => [20]
  | .UnmintLbr => [21]
  | .UpdateExchangeRate => [22]
  | .UpdateMintingAbility => [23]
  | .CreateParentVaspAccount => [24]
  | .CreateChildVaspAccount => [25]
  | .TieredMint => [26]
  | .CreateDesignatedDealer => [27]
  | .FreezeAccount => [28]
  | .UnfreezeAccount => [29]
  | .RotateAuthenticationKeyWithNonce => [30]

/-- Modelled from the spec: the display name of each operation
(`Display for StdlibScript` of the `stdlib` crate, missing from `src/`). -/
def StdlibScript.name : StdlibScript → String
  | .AddValidator => "add_validator"
  | .Burn => "burn"
  | .BurnTxnFees => "burn_txn_fees"
  | .CancelBurn => "cancel_burn"
  | .PeerToPeerWithMetadata => "peer_to_peer_with_metadata"
  | .Preburn => "preburn"
  | .PublishSharedEd2551PublicKey => "publish_shared_ed25519_public_key"
  | .AddCurrencyToAccount => "add_currency_to_account"
  | .RegisterPreburner => "register_preburner"
  | .RegisterValidator => "register_validator"
  | .RemoveValidator => "remove_validator"
  | .RotateCompliancePublicKey => "rotate_compliance_public_key"
  | .RotateBaseUrl => "rotate_base_url"
  | .RotateConsensusPubkey => "rotate_consensus_pubkey"
  | .RotateAuthenticationKey => "rotate_authentication_key"
  | .RotateSharedEd2551PublicKey => "rotate_shared_ed25519_public_key"
  | .Mint => "mint"
  | .MintLbrToAddress => "mint_lbr_to_address"
  | .ModifyPublishingOption => "modify_publishing_option"
  | .UpdateLibraVersion => "update_libra_version"
  | .MintLbr => "mint_lbr"
  | .UnmintLbr => "unmint_lbr"
  | .UpdateExchangeRate => "update_exchange_rate"
  | .UpdateMintingAbility => "update_minting_ability"
  | .CreateParentVaspAccount => "create_parent_vasp_account"
  | .CreateChildVaspAccount => "create_child_vasp_account"
  | .TieredMint => "tiered_mint"
  | .CreateDesignatedDealer => "create_designated_dealer"
  | .FreezeAccount => "freeze_account"
  | .UnfreezeAccount => "unfreeze_account"
  | .RotateAuthenticationKeyWithNonce => "rotate_authentication_key_with_nonce"

/-- Enumeration of every stdlib script, used by the reverse lookup. -/
def allScripts : List StdlibScript :=
  [.AddValidator, .Burn, .BurnTxnFees, .CancelBurn, .PeerToPeerWithMetadata,
   .Preburn, .PublishSharedEd2551PublicKey, .AddCurrencyToAccount,
   .RegisterPreburner, .RegisterValidator, .RemoveValidator,
   .RotateCompliancePublicKey, .RotateBaseUrl, .RotateConsensusPubkey,
   .RotateAuthenticationKey, .RotateSharedEd2551PublicKey, .Mint,
   .MintLbrToAddress, .ModifyPublishingOption, .UpdateLibraVersion, .MintLbr,
   .UnmintLbr, .UpdateExchangeRate, .UpdateMintingAbility,
   .CreateParentVaspAccount, .CreateChildVaspAccount, .TieredMint,
   .CreateDesignatedDealer, .FreezeAccount, .UnfreezeAccount,
   .RotateAuthenticationKeyWithNonce]

/-- Modelled from the spec: the reverse registry lookup
(`StdlibScript::try_from(&[u8])` of the `stdlib` crate, missing from
`src/`): find the operation whose registered bytecode equals the given byte
sequence. -/
def StdlibScript.try_from (code : List Nat) : Option StdlibScript :=
  allScripts.find? fun s => s.compiled_bytes == code

/-- Validation helper `validate_auth_key_prefix`: the prefix length must be 0
or exactly `AuthenticationKey::LENGTH - AccountAddress::LENGTH`; on violation
the Rust code aborts (`checked_assume!`, an `assert!` outside of MIRAI),
modelled as `none`. -/
def validate_auth_key_prefix ( auth_key_prefix : List Nat) : Option Unit :=
  if auth_key_prefix.length = 0 ∨
      auth_key_prefix.length = AuthenticationKey.LENGTH - AccountAddress.LENGTH
  then some ()
  else none

/-- Generic escape hatch `encode_stdlib_script`: no schema checking, passes
type arguments and arguments through unchanged. -/
def encode_stdlib_script (stdlib_script : StdlibScript) (type_args : List TypeTag)
    (args : List TransactionArgument) : Script :=
  Script.new stdlib_script.compiled_bytes type_args args

/-- Macro-generated encoder `encode_add_validator_script`. -/
def encode_add_validator_script (new_validator : AccountAddress) : Script :=
  Script.new StdlibScript.AddValidator.compiled_bytes []
    [TransactionArgument.Address new_validator]

/-- Macro-generated encoder `encode_burn_script`. -/
def encode_burn_script (type_ : TypeTag) (nonce : Nat)
    (preburn_address : AccountAddress) : Script :=
  Script.new StdlibScript.Burn.compiled_bytes [type_]
    [TransactionArgument.U64 nonce, TransactionArgument.Address preburn_address]

/-- Macro-generated encoder `encode_burn_txn_fees_script`. -/
def encode_burn_txn_fees_script (currency : TypeTag) : Script :=
  Script.new StdlibScript.BurnTxnFees.compiled_bytes [currency] []

/-- Macro-generated encoder `encode_cancel_burn_script`. -/
def encode_cancel_burn_script (type_ : TypeTag)
    (preburn_address : AccountAddress) : Script :=
  Script.new StdlibScript.CancelBurn.compiled_bytes [type_]
    [TransactionArgument.Address preburn_address]

/-- Macro-generated encoder `encode_transfer_with_metadata_script`. -/
def encode_transfer_with_metadata_script (coin_type : TypeTag)
    (recipient_address : AccountAddress) (amount : Nat) (metadata : List Nat)
    (metadata_signature : List Nat) : Script :=
  Script.new StdlibScript.PeerToPeerWithMetadata.compiled_bytes [coin_type]
    [TransactionArgument.Address recipient_address, TransactionArgument.U64 amount,
     TransactionArgument.U8Vector metadata,
     TransactionArgument.U8Vector metadata_signature]

/-- Macro-generated encoder `encode_preburn_script`. -/
def encode_preburn_script (type_ : TypeTag) (amount : Nat) : Script :=
  Script.new StdlibScript.Preburn.compiled_bytes [type_]
    [TransactionArgument.U64 amount]

/-- Macro-generated encoder `encode_publish_shared_ed25519_public_key_script`. -/
def encode_publish_shared_ed25519_public_key_script (public_key : List Nat) : Script :=
  Script.new StdlibScript.PublishSharedEd2551PublicKey.compiled_bytes []
    [TransactionArgument.U8Vector public_key]

/-- Macro-generated encoder `encode_add_currency_to_account_script`. -/
def encode_add_currency_to_account_script (currency : TypeTag) : Script :=
  Script.new StdlibScript.AddCurrencyToAccount.compiled_bytes [currency] []

/-- Macro-generated encoder `encode_register_preburner_script`. -/
def encode_register_preburner_script (type_ : TypeTag) : Script :=
  Script.new StdlibScript.RegisterPreburner.compiled_bytes [type_] []

/-- Macro-generated encoder `encode_register_validator_script`. -/
def encode_register_validator_script (consensus_pubkey : List Nat)
    (validator_network_identity_pubkey : List Nat)
    (validator_network_address : List Nat)
    (fullnodes_network_identity_pubkey : List Nat)
    (fullnodes_network_address : List Nat) : Script :=
  Script.new StdlibScript.RegisterValidator.compiled_bytes []
    [TransactionArgument.U8Vector consensus_pubkey,
     TransactionArgument.U8Vector validator_network_identity_pubkey,
     TransactionArgument.U8Vector validator_network_address,
     TransactionArgument.U8Vector fullnodes_network_identity_pubkey,
     TransactionArgument.U8Vector fullnodes_network_address]

/-- Macro-generated encoder `encode_remove_validator_script`. -/
def encode_remove_validator_script (to_remove : AccountAddress) : Script :=
  Script.new StdlibScript.RemoveValidator.compiled_bytes []
    [TransactionArgument.Address to_remove]

/-- Macro-generated encoder `encode_rotate_compliance_public_key_script`. -/
def encode_rotate_compliance_public_key_script (new_key : List Nat) : Script :=
  Script.new StdlibScript.RotateCompliancePublicKey.compiled_bytes []
    [TransactionArgument.U8Vector new_key]

/-- Macro-generated encoder `encode_rotate_base_url_script`. -/
def encode_rotate_base_url_script (new_url : List Nat) : Script :=
  Script.new StdlibScript.RotateBaseUrl.compiled_bytes []
    [TransactionArgument.U8Vector new_url]

/-- Macro-generated encoder `encode_rotate_consensus_pubkey_script`. -/
def encode_rotate_consensus_pubkey_script (new_key : List Nat) : Script :=
  Script.new StdlibScript.RotateConsensusPubkey.compiled_bytes []
    [TransactionArgument.U8Vector new_key]

/-- Macro-generated encoder `rotate_authentication_key_script`. -/
def rotate_authentication_key_script (new_hashed_key : List Nat) : Script :=
  Script.new StdlibScript.RotateAuthenticationKey.compiled_bytes []
    [TransactionArgument.U8Vector new_hashed_key]

/-- Macro-generated encoder `encode_rotate_shared_ed25519_public_key_script`. -/
def encode_rotate_shared_ed25519_public_key_script (new_public_key : List Nat) : Script :=
  Script.new StdlibScript.RotateSharedEd2551PublicKey.compiled_bytes []
    [TransactionArgument.U8Vector new_public_key]

/-- Handwritten encoder `encode_mint_script`: validates the auth key prefix,
then assembles the script; the abort of `validate_auth_key_prefix` is
modelled as `none`. -/
def encode_mint_script (token : TypeTag) (sender : AccountAddress)
    ( auth_key_prefix : List Nat) (amount : Nat) : Option Script :=
  ( validate_auth_key_prefix auth_key_prefix).map fun _ =>
    Script.new StdlibScript.Mint.compiled_bytes [token]
      [TransactionArgument.Address sender,
       TransactionArgument.U8Vector auth_key_prefix,
       TransactionArgument.U64 amount]

/-- Handwritten encoder `encode_mint_lbr_to_address_script`: validates the
auth key prefix, then assembles the script. -/
def encode_mint_lbr_to_address_script (address : AccountAddress)
    ( auth_key_prefix : List Nat) (amount : Nat) : Option Script :=
  ( validate_auth_key_prefix auth_key_prefix).map fun _ =>
    Script.new StdlibScript.MintLbrToAddress.compiled_bytes []
      [TransactionArgument.Address address,
       TransactionArgument.U8Vector auth_key_prefix,
       TransactionArgument.U64 amount]

/-- Modelled from the spec: `VMPublishingOption` of `libra_types` (missing
from `src/`), an opaque configuration value; its LCS serialization is
modelled as a stored byte encoding. -/
structure VMPublishingOption where
  serialized : List Nat
deriving DecidableEq

/-- Handwritten encoder `encode_publishing_option_script`: serializes the
config and passes the bytes as the single argument. -/
def encode_publishing_option_script (config : VMPublishingOption) : Script :=
  Script.new StdlibScript.ModifyPublishingOption.compiled_bytes []
    [TransactionArgument.U8Vector config.serialized]

/-- Modelled from the spec: `LibraVersion` of `libra_types` (missing from
`src/`), carrying a major version number. -/
structure LibraVersion where
  major : Nat
deriving DecidableEq

/-- Handwritten encoder `encode_update_libra_version`. -/
def encode_update_libra_version (libra_version : LibraVersion) : Script :=
  Script.new StdlibScript.UpdateLibraVersion.compiled_bytes []
    [TransactionArgument.U64 libra_version.major]

/-- Reverse lookup `get_transaction_name`: display name plus the suffix for a
registered bytecode, a fixed sentinel for anything else. -/
def get_transaction_name (code : List Nat) : String :=
  match StdlibScript.try_from code with
  | some s => s.name ++ "_transaction"
  | none => "<unknown transaction>"

/-- Macro-generated encoder `encode_mint_lbr`. -/
def encode_mint_lbr (amount_lbr : Nat) : Script :=
  Script.new StdlibScript.MintLbr.compiled_bytes []
    [TransactionArgument.U64 amount_lbr]

/-- Macro-generated encoder `encode_unmint_lbr`. -/
def encode_unmint_lbr (amount_lbr : Nat) : Script :=
  Script.new StdlibScript.UnmintLbr.compiled_bytes []
    [TransactionArgument.U64 amount_lbr]

/-- Macro-generated encoder `encode_update_exchange_rate`. -/
def encode_update_exchange_rate (currency : TypeTag)
    (new_exchange_rate_denominator : Nat)
    (new_exchange_rate_numerator : Nat) : Script :=
  Script.new StdlibScript.UpdateExchangeRate.compiled_bytes [currency]
    [TransactionArgument.U64 new_exchange_rate_denominator,
     TransactionArgument.U64 new_exchange_rate_numerator]

/-- Macro-generated encoder `encode_update_minting_ability`. -/
def encode_update_minting_ability (currency : TypeTag)
    (allow_minting : Bool) : Script :=
  Script.new StdlibScript.UpdateMintingAbility.compiled_bytes [currency]
    [TransactionArgument.Bool allow_minting]

/-- Macro-generated encoder `encode_create_parent_vasp_account`; note that
the macro performs no validation of any argument. -/
def encode_create_parent_vasp_account (currency : TypeTag)
    (address : AccountAddress) ( auth_key_prefix : List Nat)
    (human_name : List Nat) (base_url : List Nat)
    (compliance_public_key : List Nat) (add_all_currencies : Bool) : Script :=
  Script.new StdlibScript.CreateParentVaspAccount.compiled_bytes [currency]
    [TransactionArgument.Address address,
     TransactionArgument.U8Vector auth_key_prefix,
     TransactionArgument.U8Vector human_name,
     TransactionArgument.U8Vector base_url,
     TransactionArgument.U8Vector compliance_public_key,
     TransactionArgument.Bool add_all_currencies]

/-- Macro-generated encoder `encode_create_child_vasp_account`; note that the
macro performs no validation of any argument. -/
def encode_create_child_vasp_account (currency : TypeTag)
    (address : AccountAddress) ( auth_key_prefix : List Nat)
    (add_all_currencies : Bool) (initial_balance : Nat) : Script :=
  Script.new StdlibScript.CreateChildVaspAccount.compiled_bytes [currency]
    [TransactionArgument.Address address,
     TransactionArgument.U8Vector auth_key_prefix,
     TransactionArgument.Bool add_all_currencies,
     TransactionArgument.U64 initial_balance]

/-- Macro-generated encoder `encode_tiered_mint`. -/
def encode_tiered_mint (coin_type : TypeTag) (nonce : Nat)
    (designated_dealer_address : AccountAddress) (mint_amount : Nat)
    (tier_index : Nat) : Script :=
  Script.new StdlibScript.TieredMint.compiled_bytes [coin_type]
    [TransactionArgument.U64 nonce,
     TransactionArgument.Address designated_dealer_address,
     TransactionArgument.U64 mint_amount, TransactionArgument.U64 tier_index]

/-- Macro-generated encoder `encode_create_designated_dealer`; note that the
macro performs no validation of any argument. -/
def encode_create_designated_dealer (coin_type : TypeTag) (nonce : Nat)
    (new_account_address : AccountAddress)
    ( auth_key_prefix : List Nat) : Script :=
  Script.new StdlibScript.CreateDesignatedDealer.compiled_bytes [coin_type]
    [TransactionArgument.U64 nonce,
     TransactionArgument.Address new_account_address,
     TransactionArgument.U8Vector auth_key_prefix]

/-- Macro-generated encoder `encode_freeze_account`. -/
def encode_freeze_account (nonce : Nat) (addr : AccountAddress) : Script :=
  Script.new StdlibScript.FreezeAccount.compiled_bytes []
    [TransactionArgument.U64 nonce, TransactionArgument.Address addr]

/-- Macro-generated encoder `encode_unfreeze_account`. -/
def encode_unfreeze_account (nonce : Nat) (addr : AccountAddress) : Script :=
  Script.new StdlibScript.UnfreezeAccount.compiled_bytes []
    [TransactionArgument.U64 nonce, TransactionArgument.Address addr]

/-- Macro-generated encoder `encode_rotate_authentication_key_script_with_nonce`. -/
def encode_rotate_authentication_key_script_with_nonce (nonce : Nat)
    (new_hashed_key : List Nat) : Script :=
  Script.new StdlibScript.RotateAuthenticationKeyWithNonce.compiled_bytes []
    [TransactionArgument.U64 nonce, TransactionArgument.U8Vector new_hashed_key]

/-- Modelled from the spec: `BlockMetadata` of `libra_types` (missing from
`src/`), an opaque block-metadata value. -/
structure BlockMetadata where
  data : List Nat
deriving DecidableEq

/-- Modelled from the spec: the `Transaction` wrapper of `libra_types`
(missing from `src/`); only the variant used by this module is modelled. -/
inductive Transaction where
  | BlockMetadata (m : BlockMetadata)
deriving DecidableEq

/-- Handwritten encoder `encode_block_prologue_script`: wraps the block
metadata unchanged. -/
def encode_block_prologue_script (block_metadata : BlockMetadata) : Transaction :=
  Transaction.BlockMetadata block_metadata

/-- Modelled from the spec: a module identifier (`ModuleId` of
`move_core_types`, missing from `src/`): an address plus a module name. -/
structure ModuleId where
  address : AccountAddress
  moduleName : List Nat
deriving DecidableEq

/-- Modelled from the spec: `AccessPath` of `libra_types` (missing from
`src/`): an (address, path) pair identifying one state-storage slot. -/
structure AccessPath where
  address : AccountAddress
  path : List Nat
deriving DecidableEq

/-- Modelled from the spec: `AccessPath::code_access_path` of `libra_types`
(missing from `src/`): the canonical code access path derived from a module
identifier. -/
def AccessPath.code_access_path (id : ModuleId) : AccessPath :=
  ⟨id.address, 0 :: id.moduleName⟩

/-- Write operation of `libra_types::write_set` (missing from `src/`,
modelled from the spec): set a value or delete. -/
inductive WriteOp where
  | Value (bytes : List Nat)
  | Deletion
deriving DecidableEq

/-- Mutable write-set builder (`WriteSetMut` of `libra_types`, missing from
`src/`, modelled from the spec). -/
structure WriteSetMut where
  write_set : List (AccessPath × WriteOp)
deriving DecidableEq

/-- Frozen write set (`WriteSet` of `libra_types`, missing from `src/`,
modelled from the spec). -/
structure WriteSet where
  ops : List (AccessPath × WriteOp)
deriving DecidableEq

/-- Modelled from the spec: `WriteSetMut::freeze` of `libra_types` (missing
from `src/`): finalizing the write set fails on a structural violation, i.e.
when two entries share one access path. -/
def WriteSetMut.freeze (ws : WriteSetMut) : Option WriteSet :=
  if (ws.write_set.map Prod.fst).Nodup then some ⟨ws.write_set⟩ else none

/-- Modelled from the spec: a contract event (`ContractEvent` of
`libra_types`, missing from `src/`); this module only ever emits the empty
event list. -/
structure ContractEvent where
  data : List Nat
deriving DecidableEq

/-- Change set: a frozen write set plus events, as in
`libra_types::transaction::ChangeSet`. -/
structure ChangeSet where
  write_set : WriteSet
  events : List ContractEvent
deriving DecidableEq

/-- Constructor mirroring `ChangeSet::new`. -/
def ChangeSet.new (ws : WriteSet) (events : List ContractEvent) : ChangeSet :=
  ⟨ws, events⟩

/-- Modelled from the spec: a compiled stdlib module (`CompiledModule` of the
`vm` crate, missing from `src/`): it has a canonical identifier (`self_id`)
and a serialization that may fail, modelled as a stored `Option`. -/
structure CompiledModule where
  self_id : ModuleId
  serialized : Option (List Nat)
deriving DecidableEq

/-- Loop body of `encode_stdlib_upgrade_transaction`: serialize each module
in iteration order and emit a set-value write op keyed by its code access
path; the first serialization failure aborts (`expect`), modelled as `none`. -/
def serializeAll : List CompiledModule → Option (List (AccessPath × WriteOp))
  | [] => some []
  | m :: rest =>
    match m.serialized with
    | none => none
    | some bytes =>
      match serializeAll rest with
      | none => none
      | some tail =>
        some ((AccessPath.code_access_path m.self_id, WriteOp.Value bytes) :: tail)

/-- Core of `encode_stdlib_upgrade_transaction` over an arbitrary module
list: build the write ops, freeze them, and pair them with an empty event
list; any abort (`expect`) is modelled as `none`. -/
def build_stdlib_upgrade (modules : List CompiledModule) : Option ChangeSet :=
  match serializeAll modules with
  | none => none
  | some ops =>
    match WriteSetMut.freeze ⟨ops⟩ with
    | none => none
    | some ws => some (ChangeSet.new ws [])

/-- Modelled from the spec: `StdLibOptions` of the `stdlib` crate (missing
from `src/`), selecting which stdlib module set to publish. -/
inductive StdLibOptions where
  | Staged
  | Fresh
deriving DecidableEq

/-- Address 0x1, where stdlib code modules live. -/
def CORE_CODE_ADDRESS : AccountAddress :=
  ⟨List.replicate 15 0 ++ [1]⟩

/-- Modelled from the spec: `stdlib::stdlib_modules` (missing from `src/`),
the ordered, pre-compiled, trusted stdlib module sets; modelled as small
concrete sets with distinct identifiers and successful serializations. -/
def stdlib_modules : StdLibOptions → List CompiledModule
  | .Staged => [⟨⟨CORE_CODE_ADDRESS, [1]⟩, some [101]⟩,
                ⟨⟨CORE_CODE_ADDRESS, [2]⟩, some [102]⟩]
  | .Fresh => [⟨⟨CORE_CODE_ADDRESS, [1]⟩, some [201]⟩,
               ⟨⟨CORE_CODE_ADDRESS, [2]⟩, some [202]⟩,
               ⟨⟨CORE_CODE_ADDRESS, [3]⟩, some [203]⟩]

/-- Upgrade writeset builder `encode_stdlib_upgrade_transaction`. -/
def encode_stdlib_upgrade_transaction (opt : StdLibOptions) : Option ChangeSet :=
  build_stdlib_upgrade (stdlib_modules opt)

/-- Concrete address used to instantiate theorems. -/
def addr0 : AccountAddress := ⟨List.replicate 16 0⟩

/-- Concrete type tag used to instantiate theorems. -/
def tag0 : TypeTag := ⟨0⟩

/-- Valid auth-key-prefix lengths make the validation helper succeed. -/
theorem validate_ok {p : List Nat}
    (h : p.length = 0 ∨
      p.length = AuthenticationKey.LENGTH - AccountAddress.LENGTH) :
    validate_auth_key_prefix p = some () := by
  unfold validate_auth_key_prefix
  rw [if_pos h]

/-- Invalid auth-key-prefix lengths make the validation helper abort. -/
theorem validate_fail {p : List Nat}
    (h : ¬ (p.length = 0 ∨
      p.length = AuthenticationKey.LENGTH - AccountAddress.LENGTH)) :
    validate_auth_key_prefix p = none := by
  unfold validate_auth_key_prefix
  rw [if_neg h]

/-- Aborting of the validation helper is equivalent to an invalid length. -/
theorem validate_none_iff (p : List Nat) :
    validate_auth_key_prefix p = none ↔
      ¬ (p.length = 0 ∨
        p.length = AuthenticationKey.LENGTH - AccountAddress.LENGTH) := by
  by_cases h : p.length = 0 ∨
      p.length = AuthenticationKey.LENGTH - AccountAddress.LENGTH
  · rw [validate_ok h]
    exact ⟨fun hn => Option.noConfusion hn, fun hn => absurd h hn⟩
  · rw [validate_fail h]
    exact ⟨fun _ => h, fun _ => rfl⟩

/-- Claim C2: for every byte vector whose length is 0 or exactly
`AuthenticationKey::LENGTH - AccountAddress::LENGTH`, the validation helper
returns normally; for every other length it aborts instead of returning. -/
theorem validate_auth_key_prefix_spec :
    ∀ p : List Nat,
      (( validate_auth_key_prefix p = some ()) ↔
        (p.length = 0 ∨
          p.length = AuthenticationKey.LENGTH - AccountAddress.LENGTH)) ∧
      (( validate_auth_key_prefix p = none) ↔
        ¬ (p.length = 0 ∨
          p.length = AuthenticationKey.LENGTH - AccountAddress.LENGTH)) := by
  intro p
  refine ⟨?_, validate_none_iff p⟩
  by_cases h : p.length = 0 ∨
      p.length = AuthenticationKey.LENGTH - AccountAddress.LENGTH
  · rw [validate_ok h]
    exact ⟨fun _ => h, fun _ => rfl⟩
  · rw [validate_fail h]
    exact ⟨fun hn => Option.noConfusion hn, fun hc => absurd hc h⟩

/-- Claim C1 (counterexample): `encode_create_child_vasp_account` assembles
and returns a `Script` for a prefix of invalid length 1 — the length
precondition is not checked there, so the construction does not abort. -/
theorem create_child_vasp_account_skips_validation :
    encode_create_child_vasp_account tag0 addr0 [1] true 0 =
      Script.new StdlibScript.CreateChildVaspAccount.compiled_bytes [tag0]
        [TransactionArgument.Address addr0, TransactionArgument.U8Vector [1],
         TransactionArgument.Bool true, TransactionArgument.U64 0] ∧
    validate_auth_key_prefix [1] = none :=
  ⟨rfl, by decide⟩

/-- Claim C1 (amended): only the handwritten encoders `encode_mint_script`
and `encode_mint_lbr_to_address_script` check the auth-key-prefix length
precondition and abort on violation; the macro-generated encoders
`encode_create_parent_vasp_account`, `encode_create_child_vasp_account` and
`encode_create_designated_dealer` embed the supplied prefix unvalidated, for
every length. -/
theorem auth_key_prefix_validation_extent :
    (∀ (token : TypeTag) (sender : AccountAddress) (p : List Nat) (n : Nat),
      (encode_mint_script token sender p n = none ↔
        ¬ (p.length = 0 ∨
          p.length = AuthenticationKey.LENGTH - AccountAddress.LENGTH))) ∧
    (∀ (address : AccountAddress) (p : List Nat) (n : Nat),
      (encode_mint_lbr_to_address_script address p n = none ↔
        ¬ (p.length = 0 ∨
          p.length = AuthenticationKey.LENGTH - AccountAddress.LENGTH))) ∧
    (∀ (currency : TypeTag) (address : AccountAddress)
        (p hname url ckey : List Nat) (b : Bool),
      (encode_create_parent_vasp_account currency address p hname url ckey b).args =
        [TransactionArgument.Address address, TransactionArgument.U8Vector p,
         TransactionArgument.U8Vector hname, TransactionArgument.U8Vector url,
         TransactionArgument.U8Vector ckey, TransactionArgument.Bool b]) ∧
    (∀ (currency : TypeTag) (address : AccountAddress) (p : List Nat)
        (b : Bool) (n : Nat),
      (encode_create_child_vasp_account currency address p b n).args =
        [TransactionArgument.Address address, TransactionArgument.U8Vector p,
         TransactionArgument.Bool b, TransactionArgument.U64 n]) ∧
    (∀ (coin_type : TypeTag) (nonce : Nat) (address : AccountAddress)
        (p : List Nat),
      (encode_create_designated_dealer coin_type nonce address p).args =
        [TransactionArgument.U64 nonce, TransactionArgument.Address address,
         TransactionArgument.U8Vector p]) := by
  refine ⟨?_, ?_, fun _ _ _ _ _ _ _ => rfl, fun _ _ _ _ _ => rfl,
    fun _ _ _ _ => rfl⟩
  · intro token sender p n
    unfold encode_mint_script
    rw [Option.map_eq_none']
    exact validate_none_iff p
  · intro address p n
    unfold encode_mint_lbr_to_address_script
    rw [Option.map_eq_none']
    exact validate_none_iff p

/-- Claim C5: for all argument values, `encode_create_parent_vasp_account`
returns a `Script` whose argument tags are exactly
`[Address, Bytes, Bytes, Bytes, Bytes, Bool]` in that order and whose
type-argument vector contains exactly the one supplied currency tag. -/
theorem encode_create_parent_vasp_account_schema :
    ∀ (currency : TypeTag) (address : AccountAddress)
      (p hname url ckey : List Nat) (b : Bool),
      ((encode_create_parent_vasp_account currency address p hname url ckey b).args.map
          TransactionArgument.tag =
        [ArgTag.Address, ArgTag.Bytes, ArgTag.Bytes, ArgTag.Bytes,
         ArgTag.Bytes, ArgTag.Bool]) ∧
      (encode_create_parent_vasp_account currency address p hname url ckey b).ty_args =
        [currency] :=
  fun _ _ _ _ _ _ _ => ⟨rfl, rfl⟩

/-- Claim C7: with a prefix of valid length, `encode_mint_lbr_to_address_script`
returns the script `[Address, Bytes(prefix), U64(amount)]` with no type
arguments; with a prefix of any other length it aborts. -/
theorem encode_mint_lbr_to_address_script_spec :
    ∀ (address : AccountAddress) (amount : Nat),
      (∀ p : List Nat,
        p.length = 0 ∨ p.length = AuthenticationKey.LENGTH - AccountAddress.LENGTH →
          encode_mint_lbr_to_address_script address p amount =
            some (Script.new StdlibScript.MintLbrToAddress.compiled_bytes []
              [TransactionArgument.Address address,
               TransactionArgument.U8Vector p,
               TransactionArgument.U64 amount])) ∧
      (∀ p : List Nat, p.length ≠ 0 →
        p.length ≠ AuthenticationKey.LENGTH - AccountAddress.LENGTH →
          encode_mint_lbr_to_address_script address p amount = none) := by
  intro address amount
  constructor
  · intro p h
    unfold encode_mint_lbr_to_address_script
    rw [validate_ok h]
    rfl
  · intro p h1 h2
    unfold encode_mint_lbr_to_address_script
    rw [validate_fail (by rintro (hc | hc); exacts [h1 hc, h2 hc])]
    rfl

/-- Claim C7 (witness): the two scenarios at a concrete address and amount:
the empty prefix succeeds with the stated arguments, the length-1 prefix
aborts. -/
theorem encode_mint_lbr_to_address_script_spec_witness :
    encode_mint_lbr_to_address_script addr0 [] 100 =
      some (Script.new StdlibScript.MintLbrToAddress.compiled_bytes []
        [TransactionArgument.Address addr0, TransactionArgument.U8Vector [],
         TransactionArgument.U64 100]) ∧
    encode_mint_lbr_to_address_script addr0 [1] 100 = none :=
  ⟨(encode_mint_lbr_to_address_script_spec addr0 100).1 [] (Or.inl rfl),
   (encode_mint_lbr_to_address_script_spec addr0 100).2 [1] (by decide)
     (by decide)⟩

/-- Claim C8: `encode_add_validator_script` returns the script with the
registered `AddValidator` bytecode, no type arguments, and exactly the one
address argument. -/
theorem encode_add_validator_script_spec :
    ∀ new_validator : AccountAddress,
      (encode_add_validator_script new_validator).code =
          StdlibScript.AddValidator.compiled_bytes ∧
      (encode_add_validator_script new_validator).ty_args = [] ∧
      (encode_add_validator_script new_validator).args =
          [TransactionArgument.Address new_validator] :=
  fun _ => ⟨rfl, rfl, rfl⟩

/-- Claim C9: the generic escape hatch `encode_stdlib_script` performs no
checking: it returns the registered bytecode for the given script together
with the supplied type-argument and argument vectors unchanged, and (being a
total function) never aborts. -/
theorem encode_stdlib_script_spec :
    ∀ (s : StdlibScript) (type_args : List TypeTag)
      (args : List TransactionArgument),
      (encode_stdlib_script s type_args args).code = s.compiled_bytes ∧
      (encode_stdlib_script s type_args args).ty_args = type_args ∧
      (encode_stdlib_script s type_args args).args = args :=
  fun _ _ _ => ⟨rfl, rfl, rfl⟩

/-- Whatever `encode_mint_script` returns carries the registered `Mint`
bytecode. -/
theorem encode_mint_script_code (t : TypeTag) (s : AccountAddress)
    (p : List Nat) (n : Nat) :
    ((encode_mint_script t s p n).all
      fun sc => sc.code == StdlibScript.Mint.compiled_bytes) = true := by
  unfold encode_mint_script
  cases validate_auth_key_prefix p <;> simp [Option.all, Script.new]

/-- Whatever `encode_mint_lbr_to_address_script` returns carries the
registered `MintLbrToAddress` bytecode. -/
theorem encode_mint_lbr_to_address_script_code (a : AccountAddress)
    (p : List Nat) (n : Nat) :
    ((encode_mint_lbr_to_address_script a p n).all
      fun sc => sc.code == StdlibScript.MintLbrToAddress.compiled_bytes) = true := by
  unfold encode_mint_lbr_to_address_script
  cases validate_auth_key_prefix p <;> simp [Option.all, Script.new]

/-- Claim C3: for every typed encoder in the module and all argument values,
the bytecode of the returned `Script` equals the registry's fixed bytecode
for that encoder's operation; it does not depend on any argument value (for
the two encoders that can abort, every returned script carries that fixed
bytecode). -/
theorem bytecode_argument_independent :
    (∀ a, (encode_add_validator_script a).code =
      StdlibScript.AddValidator.compiled_bytes) ∧
    (∀ t n a, (encode_burn_script t n a).code =
      StdlibScript.Burn.compiled_bytes) ∧
    (∀ t, (encode_burn_txn_fees_script t).code =
      StdlibScript.BurnTxnFees.compiled_bytes) ∧
    (∀ t a, (encode_cancel_burn_script t a).code =
      StdlibScript.CancelBurn.compiled_bytes) ∧
    (∀ t a n m ms, (encode_transfer_with_metadata_script t a n m ms).code =
      StdlibScript.PeerToPeerWithMetadata.compiled_bytes) ∧
    (∀ t n, (encode_preburn_script t n).code =
      StdlibScript.Preburn.compiled_bytes) ∧
    (∀ k, (encode_publish_shared_ed25519_public_key_script k).code =
      StdlibScript.PublishSharedEd2551PublicKey.compiled_bytes) ∧
    (∀ t, (encode_add_currency_to_account_script t).code =
      StdlibScript.AddCurrencyToAccount.compiled_bytes) ∧
    (∀ t, (encode_register_preburner_script t).code =
      StdlibScript.RegisterPreburner.compiled_bytes) ∧
    (∀ k1 k2 k3 k4 k5, (encode_register_validator_script k1 k2 k3 k4 k5).code =
      StdlibScript.RegisterValidator.compiled_bytes) ∧
    (∀ a, (encode_remove_validator_script a).code =
      StdlibScript.RemoveValidator.compiled_bytes) ∧
    (∀ k, (encode_rotate_compliance_public_key_script k).code =
      StdlibScript.RotateCompliancePublicKey.compiled_bytes) ∧
    (∀ u, (encode_rotate_base_url_script u).code =
      StdlibScript.RotateBaseUrl.compiled_bytes) ∧
    (∀ k, (encode_rotate_consensus_pubkey_script k).code =
      StdlibScript.RotateConsensusPubkey.compiled_bytes) ∧
    (∀ k, (rotate_authentication_key_script k).code =
      StdlibScript.RotateAuthenticationKey.compiled_bytes) ∧
    (∀ k, (encode_rotate_shared_ed25519_public_key_script k).code =
      StdlibScript.RotateSharedEd2551PublicKey.compiled_bytes) ∧
    (∀ t s p n, ((encode_mint_script t s p n).all
      fun sc => sc.code == StdlibScript.Mint.compiled_bytes) = true) ∧
    (∀ a p n, ((encode_mint_lbr_to_address_script a p n).all
      fun sc => sc.code == StdlibScript.MintLbrToAddress.compiled_bytes) = true) ∧
    (∀ c, (encode_publishing_option_script c).code =
      StdlibScript.ModifyPublishingOption.compiled_bytes) ∧
    (∀ v, (encode_update_libra_version v).code =
      StdlibScript.UpdateLibraVersion.compiled_bytes) ∧
    (∀ n, (encode_mint_lbr n).code = StdlibScript.MintLbr.compiled_bytes) ∧
    (∀ n, (encode_unmint_lbr n).code = StdlibScript.UnmintLbr.compiled_bytes) ∧
    (∀ t d n, (encode_update_exchange_rate t d n).code =
      StdlibScript.UpdateExchangeRate.compiled_bytes) ∧
    (∀ t b, (encode_update_minting_ability t b).code =
      StdlibScript.UpdateMintingAbility.compiled_bytes) ∧
    (∀ t a p h u k b, (encode_create_parent_vasp_account t a p h u k b).code =
      StdlibScript.CreateParentVaspAccount.compiled_bytes) ∧
    (∀ t a p b n, (encode_create_child_vasp_account t a p b n).code =
      StdlibScript.CreateChildVaspAccount.compiled_bytes) ∧
    (∀ t n a m i, (encode_tiered_mint t n a m i).code =
      StdlibScript.TieredMint.compiled_bytes) ∧
    (∀ t n a p, (encode_create_designated_dealer t n a p).code =
      StdlibScript.CreateDesignatedDealer.compiled_bytes) ∧
    (∀ n a, (encode_freeze_account n a).code =
      StdlibScript.FreezeAccount.compiled_bytes) ∧
    (∀ n a, (encode_unfreeze_account n a).code =
      StdlibScript.UnfreezeAccount.compiled_bytes) ∧
    (∀ n k, (encode_rotate_authentication_key_script_with_nonce n k).code =
      StdlibScript.RotateAuthenticationKeyWithNonce.compiled_bytes) :=
  ⟨fun _ => rfl, fun _ _ _ => rfl, fun _ => rfl, fun _ _ => rfl,
   fun _ _ _ _ _ => rfl, fun _ _ => rfl, fun _ => rfl, fun _ => rfl,
   fun _ => rfl, fun _ _ _ _ _ => rfl, fun _ => rfl, fun _ => rfl,
   fun _ => rfl, fun _ => rfl, fun _ => rfl, fun _ => rfl,
   encode_mint_script_code, encode_mint_lbr_to_address_script_code,
   fun _ => rfl, fun _ => rfl, fun _ => rfl, fun _ => rfl, fun _ _ _ => rfl,
   fun _ _ => rfl, fun _ _ _ _ _ _ _ => rfl, fun _ _ _ _ _ => rfl,
   fun _ _ _ _ _ => rfl, fun _ _ _ _ => rfl, fun _ _ => rfl, fun _ _ => rfl,
   fun _ _ => rfl⟩

/-- Reverse lookup of a registered bytecode finds its operation. -/
theorem try_from_compiled (s : StdlibScript) :
    StdlibScript.try_from s.compiled_bytes = some s := by
  cases s <;> rfl

/-- Reverse lookup success forces the code to be that operation's registered
bytecode. -/
theorem try_from_some {code : List Nat} {s : StdlibScript}
    (h : StdlibScript.try_from code = some s) : s.compiled_bytes = code := by
  have h2 : allScripts.find? (fun t => t.compiled_bytes == code) = some s := h
  have h3 := List.find?_some h2
  exact eq_of_beq h3

/-- Claim C6: `get_transaction_name` returns the operation display name with
the `_transaction` suffix for every registered bytecode, and the fixed
sentinel for every other byte sequence, including the empty sequence; it is
a total function and so never fails. -/
theorem get_transaction_name_spec :
    (∀ s : StdlibScript,
      get_transaction_name s.compiled_bytes = s.name ++ "_transaction") ∧
    (∀ code : List Nat, (∀ s : StdlibScript, code ≠ s.compiled_bytes) →
      get_transaction_name code = "<unknown transaction>") ∧
    get_transaction_name [] = "<unknown transaction>" := by
  refine ⟨?_, ?_, rfl⟩
  · intro s
    unfold get_transaction_name
    rw [try_from_compiled s]
  · intro code h
    unfold get_transaction_name
    cases hf : StdlibScript.try_from code with
    | none => rfl
    | some s => exact absurd (try_from_some hf).symm (h s)

/-- Claim C6 (witness): an unregistered one-byte sequence resolves to the
sentinel string. -/
theorem get_transaction_name_spec_witness :
    get_transaction_name [255] = "<unknown transaction>" :=
  get_transaction_name_spec.2.1 [255] (by intro s; cases s <;> decide)

/-- Successful serialization of a module list yields exactly one set-value
write op per module, in order, keyed by the module's code access path. -/
theorem serializeAll_eq_some {ms : List CompiledModule}
    {ops : List (AccessPath × WriteOp)} (h : serializeAll ms = some ops) :
    (∀ m ∈ ms, m.serialized.isSome = true) ∧
    ops = ms.map fun m =>
      (AccessPath.code_access_path m.self_id,
       WriteOp.Value (m.serialized.getD [])) := by
  induction ms generalizing ops with
  | nil =>
    rw [serializeAll] at h
    injection h with h
    subst h
    exact ⟨by simp, rfl⟩
  | cons m rest ih =>
    rw [serializeAll] at h
    cases hm : m.serialized with
    | none => rw [hm] at h; exact Option.noConfusion h
    | some bytes =>
      rw [hm] at h
      cases hr : serializeAll rest with
      | none => rw [hr] at h; exact Option.noConfusion h
      | some tail =>
        rw [hr] at h
        injection h with h
        obtain ⟨hall, htail⟩ := ih hr
        subst h
        constructor
        · intro x hx
          rcases List.mem_cons.mp hx with hx | hx
          · subst hx; rw [hm]; rfl
          · exact hall x hx
        · rw [List.map_cons, ← htail, hm]
          rfl

/-- Serialization of a module list aborts exactly when some module fails to
serialize. -/
theorem serializeAll_eq_none (ms : List CompiledModule) :
    serializeAll ms = none ↔ ∃ m ∈ ms, m.serialized = none := by
  induction ms with
  | nil => simp [serializeAll]
  | cons m rest ih =>
    rw [serializeAll]
    cases hm : m.serialized with
    | none =>
      exact ⟨fun _ => ⟨m, List.mem_cons_self m rest, hm⟩, fun _ => rfl⟩
    | some bytes =>
      cases hr : serializeAll rest with
      | none =>
        constructor
        · intro _
          obtain ⟨x, hx, hxn⟩ := ih.mp hr
          exact ⟨x, List.mem_cons_of_mem m hx, hxn⟩
        · intro _; rfl
      | some tail =>
        constructor
        · intro hcontra; exact Option.noConfusion hcontra
        · rintro ⟨x, hx, hxn⟩
          rcases List.mem_cons.mp hx with hx | hx
          · subst hx; rw [hm] at hxn; exact Option.noConfusion hxn
          · have hn := ih.mpr ⟨x, hx, hxn⟩
            rw [hr] at hn
            exact Option.noConfusion hn

/-- Claim C4: a returned `ChangeSet` has an empty event list and exactly one
set-value write op per module of the selected set, in iteration order, keyed
by the code access path of that module's identifier with the module's
serialized bytes as payload, and with pairwise-distinct access paths; the
builder aborts exactly on a serialization failure or a duplicate access
path, never returning a partial result. -/
theorem encode_stdlib_upgrade_transaction_spec :
    (∀ (modules : List CompiledModule) (cs : ChangeSet),
      build_stdlib_upgrade modules = some cs →
        cs.events = [] ∧
        (∀ m ∈ modules, m.serialized.isSome = true) ∧
        cs.write_set.ops = (modules.map fun m =>
          (AccessPath.code_access_path m.self_id,
           WriteOp.Value (m.serialized.getD []))) ∧
        (cs.write_set.ops.map Prod.fst).Nodup) ∧
    (∀ modules : List CompiledModule,
      (build_stdlib_upgrade modules = none ↔
        (∃ m ∈ modules, m.serialized = none) ∨
          ¬ (modules.map fun m =>
              AccessPath.code_access_path m.self_id).Nodup)) ∧
    (∀ opt, encode_stdlib_upgrade_transaction opt =
      build_stdlib_upgrade (stdlib_modules opt)) := by
  refine ⟨?_, ?_, fun _ => rfl⟩
  · intro modules cs h
    unfold build_stdlib_upgrade at h
    cases hs : serializeAll modules with
    | none => rw [hs] at h; exact Option.noConfusion h
    | some ops =>
      rw [hs] at h
      simp only [WriteSetMut.freeze] at h
      by_cases hd : (ops.map Prod.fst).Nodup
      · rw [if_pos hd] at h
        injection h with h
        obtain ⟨hall, hops⟩ := serializeAll_eq_some hs
        subst h
        exact ⟨rfl, hall, hops, hd⟩
      · rw [if_neg hd] at h
        exact Option.noConfusion h
  · intro modules
    constructor
    · intro h
      unfold build_stdlib_upgrade at h
      cases hs : serializeAll modules with
      | none => exact Or.inl ((serializeAll_eq_none modules).mp hs)
      | some ops =>
        rw [hs] at h
        simp only [WriteSetMut.freeze] at h
        by_cases hd : (ops.map Prod.fst).Nodup
        · rw [if_pos hd] at h
          exact Option.noConfusion h
        · right
          obtain ⟨hall, hops⟩ := serializeAll_eq_some hs
          intro hnd
          apply hd
          rw [hops, List.map_map]
          exact hnd
    · intro h
      unfold build_stdlib_upgrade
      rcases h with h | h
      · rw [(serializeAll_eq_none modules).mpr h]
      · cases hs : serializeAll modules with
        | none => rfl
        | some ops =>
          obtain ⟨hall, hops⟩ := serializeAll_eq_some hs
          have hnd : ¬ (ops.map Prod.fst).Nodup := by
            rw [hops, List.map_map]
            exact h
          have hfreeze : WriteSetMut.freeze ⟨ops⟩ = none := by
            simp only [WriteSetMut.freeze]
            rw [if_neg hnd]
          show (match WriteSetMut.freeze ⟨ops⟩ with
            | none => none
            | some ws => some (ChangeSet.new ws [])) = none
          rw [hfreeze]

/-- Single-module list used to instantiate the upgrade theorem. -/
def modules0 : List CompiledModule :=
  [⟨⟨CORE_CODE_ADDRESS, [1]⟩, some [7]⟩]

/-- Change set the builder produces on `modules0`. -/
def cs0 : ChangeSet :=
  ⟨⟨[(AccessPath.code_access_path ⟨CORE_CODE_ADDRESS, [1]⟩, WriteOp.Value [7])]⟩,
   []⟩

/-- Claim C4 (witness): on a concrete one-module list the builder returns a
change set with an empty event list and distinct access paths. -/
theorem encode_stdlib_upgrade_transaction_spec_witness :
    cs0.events = [] ∧ (cs0.write_set.ops.map Prod.fst).Nodup :=
  ⟨(encode_stdlib_upgrade_transaction_spec.1 modules0 cs0 (by decide)).1,
   (encode_stdlib_upgrade_transaction_spec.1 modules0 cs0 (by decide)).2.2.2⟩

/-- Claim C10: every encoder in the module is deterministic — two
invocations of the same encoder on equal argument values return equal
results; the encoders are pure functions of their arguments (the bytecode
registry is immutable, so there is no shared mutable state to read or
write). -/
theorem encoders_deterministic :
    (∀ x y : StdlibScript × List TypeTag × List TransactionArgument, x = y →
      encode_stdlib_script x.1 x.2.1 x.2.2 = encode_stdlib_script y.1 y.2.1 y.2.2) ∧
    (∀ x y : AccountAddress, x = y →
      encode_add_validator_script x = encode_add_validator_script y) ∧
    (∀ x y : TypeTag × Nat × AccountAddress, x = y →
      encode_burn_script x.1 x.2.1 x.2.2 = encode_burn_script y.1 y.2.1 y.2.2) ∧
    (∀ x y : TypeTag, x = y →
      encode_burn_txn_fees_script x = encode_burn_txn_fees_script y) ∧
    (∀ x y : TypeTag × AccountAddress, x = y →
      encode_cancel_burn_script x.1 x.2 = encode_cancel_burn_script y.1 y.2) ∧
    (∀ x y : TypeTag × AccountAddress × Nat × List Nat × List Nat, x = y →
      encode_transfer_with_metadata_script x.1 x.2.1 x.2.2.1 x.2.2.2.1 x.2.2.2.2 =
        encode_transfer_with_metadata_script y.1 y.2.1 y.2.2.1 y.2.2.2.1 y.2.2.2.2) ∧
    (∀ x y : TypeTag × Nat, x = y →
      encode_preburn_script x.1 x.2 = encode_preburn_script y.1 y.2) ∧
    (∀ x y : List Nat, x = y →
      encode_publish_shared_ed25519_public_key_script x =
        encode_publish_shared_ed25519_public_key_script y) ∧
    (∀ x y : TypeTag, x = y →
      encode_add_currency_to_account_script x =
        encode_add_currency_to_account_script y) ∧
    (∀ x y : TypeTag, x = y →
      encode_register_preburner_script x = encode_register_preburner_script y) ∧
    (∀ x y : List Nat × List Nat × List Nat × List Nat × List Nat, x = y →
      encode_register_validator_script x.1 x.2.1 x.2.2.1 x.2.2.2.1 x.2.2.2.2 =
        encode_register_validator_script y.1 y.2.1 y.2.2.1 y.2.2.2.1 y.2.2.2.2) ∧
    (∀ x y : AccountAddress, x = y →
      encode_remove_validator_script x = encode_remove_validator_script y) ∧
    (∀ x y : List Nat, x = y →
      encode_rotate_compliance_public_key_script x =
        encode_rotate_compliance_public_key_script y) ∧
    (∀ x y : List Nat, x = y →
      encode_rotate_base_url_script x = encode_rotate_base_url_script y) ∧
    (∀ x y : List Nat, x = y →
      encode_rotate_consensus_pubkey_script x =
        encode_rotate_consensus_pubkey_script y) ∧
    (∀ x y : List Nat, x = y →
      rotate_authentication_key_script x = rotate_authentication_key_script y) ∧
    (∀ x y : List Nat, x = y →
      encode_rotate_shared_ed25519_public_key_script x =
        encode_rotate_shared_ed25519_public_key_script y) ∧
    (∀ x y : TypeTag × AccountAddress × List Nat × Nat, x = y →
      encode_mint_script x.1 x.2.1 x.2.2.1 x.2.2.2 =
        encode_mint_script y.1 y.2.1 y.2.2.1 y.2.2.2) ∧
    (∀ x y : AccountAddress × List Nat × Nat, x = y →
      encode_mint_lbr_to_address_script x.1 x.2.1 x.2.2 =
        encode_mint_lbr_to_address_script y.1 y.2.1 y.2.2) ∧
    (∀ x y : VMPublishingOption, x = y →
      encode_publishing_option_script x = encode_publishing_option_script y) ∧
    (∀ x y : LibraVersion, x = y →
      encode_update_libra_version x = encode_update_libra_version y) ∧
    (∀ x y : BlockMetadata, x = y →
      encode_block_prologue_script x = encode_block_prologue_script y) ∧
    (∀ x y : Nat, x = y → encode_mint_lbr x = encode_mint_lbr y) ∧
    (∀ x y : Nat, x = y → encode_unmint_lbr x = encode_unmint_lbr y) ∧
    (∀ x y : TypeTag × Nat × Nat, x = y →
      encode_update_exchange_rate x.1 x.2.1 x.2.2 =
        encode_update_exchange_rate y.1 y.2.1 y.2.2) ∧
    (∀ x y : TypeTag × Bool, x = y →
      encode_update_minting_ability x.1 x.2 =
        encode_update_minting_ability y.1 y.2) ∧
    (∀ x y : TypeTag × AccountAddress × List Nat × List Nat × List Nat ×
        List Nat × Bool, x = y →
      encode_create_parent_vasp_account x.1 x.2.1 x.2.2.1 x.2.2.2.1
          x.2.2.2.2.1 x.2.2.2.2.2.1 x.2.2.2.2.2.2 =
        encode_create_parent_vasp_account y.1 y.2.1 y.2.2.1 y.2.2.2.1
          y.2.2.2.2.1 y.2.2.2.2.2.1 y.2.2.2.2.2.2) ∧
    (∀ x y : TypeTag × AccountAddress × List Nat × Bool × Nat, x = y →
      encode_create_child_vasp_account x.1 x.2.1 x.2.2.1 x.2.2.2.1 x.2.2.2.2 =
        encode_create_child_vasp_account y.1 y.2.1 y.2.2.1 y.2.2.2.1 y.2.2.2.2) ∧
    (∀ x y : TypeTag × Nat × AccountAddress × Nat × Nat, x = y →
      encode_tiered_mint x.1 x.2.1 x.2.2.1 x.2.2.2.1 x.2.2.2.2 =
        encode_tiered_mint y.1 y.2.1 y.2.2.1 y.2.2.2.1 y.2.2.2.2) ∧
    (∀ x y : TypeTag × Nat × AccountAddress × List Nat, x = y →
      encode_create_designated_dealer x.1 x.2.1 x.2.2.1 x.2.2.2 =
        encode_create_designated_dealer y.1 y.2.1 y.2.2.1 y.2.2.2) ∧
    (∀ x y : Nat × AccountAddress, x = y →
      encode_freeze_account x.1 x.2 = encode_freeze_account y.1 y.2) ∧
    (∀ x y : Nat × AccountAddress, x = y →
      encode_unfreeze_account x.1 x.2 = encode_unfreeze_account y.1 y.2) ∧
    (∀ x y : Nat × List Nat, x = y →
      encode_rotate_authentication_key_script_with_nonce x.1 x.2 =
        encode_rotate_authentication_key_script_with_nonce y.1 y.2) ∧
    (∀ x y : StdLibOptions, x = y →
      encode_stdlib_upgrade_transaction x = encode_stdlib_upgrade_transaction y) :=
  ⟨fun _ _ h => by rw [h], fun _ _ h => by rw [h], fun _ _ h => by rw [h],
   fun _ _ h => by rw [h], fun _ _ h => by rw [h], fun _ _ h => by rw [h],
   fun _ _ h => by rw [h], fun _ _ h => by rw [h], fun _ _ h => by rw [h],
   fun _ _ h => by rw [h], fun _ _ h => by rw [h], fun _ _ h => by rw [h],
   fun _ _ h => by rw [h], fun _ _ h => by rw [h], fun _ _ h => by rw [h],
   fun _ _ h => by rw [h], fun _ _ h => by rw [h], fun _ _ h => by rw [h],
   fun _ _ h => by rw [h], fun _ _ h => by rw [h], fun _ _ h => by rw [h],
   fun _ _ h => by rw [h], fun _ _ h => by rw [h], fun _ _ h => by rw [h],
   fun _ _ h => by rw [h], fun _ _ h => by rw [h], fun _ _ h => by rw [h],
   fun _ _ h => by rw [h], fun _ _ h => by rw [h], fun _ _ h => by rw [h],
   fun _ _ h => by rw [h], fun _ _ h => by rw [h], fun _ _ h => by rw [h],
   fun _ _ h => by rw [h]⟩

/-- Claim C10 (witness): two invocations of `encode_add_validator_script`
on the same concrete address agree. -/
theorem encoders_deterministic_witness :
    encode_add_validator_script addr0 = encode_add_validator_script addr0 :=
  encoders_deterministic.2.1 addr0 addr0 rfl

end TxnBuilder
